import Mathlib

/-!
Shallow embedding of the job lifecycle orchestration and persistence layer
(`app/services/job_service.py`, `app/db/repositories/jobs.py`,
`app/db/repositories/base.py`, `app/models/job.py`).

The MongoDB collection is modelled as a list of job documents; `find_one`
returns the first document whose `_id` matches, `find_one_and_update`
replaces that first document ($set semantics over explicit fields), and
`delete_one` removes it.  Every call to `datetime.utcnow()` in the source
is modelled as an explicit `Time` argument, one per call site, in source
order; clock monotonicity (`t1 ≤ t2` for consecutive reads) is assumed
only where a theorem needs it.  Fallible paths return `Except String`.
-/

/-- Timestamps: abstract instants, modelling `datetime` values. -/
abbrev Time := Nat

/-- Embeds `JobStatus` from `app/models/job.py`. -/
inductive JobStatus where
  | queued
  | processing
  | completed
  | failed
  | cancelled
  deriving DecidableEq, Repr, BEq

/-- Result dictionary produced by `_process_job_logic`:
`{"processed": True, "timestamp": ...}`. -/
structure ProcResult where
  processed : Bool
  timestamp : Time
  deriving DecidableEq, Repr

/-- Embeds the persisted `Job` document (`app/models/job.py`, class `Job`,
plus the `created_at`/`updated_at` fields written by the repository).
`payload` is an opaque serialized key/value map. -/
structure Job where
  id : String
  title : String
  description : Option String
  status : JobStatus
  priority : Int
  payload : List (String × String)
  user_id : String
  result : Option ProcResult
  error : Option String
  created_at : Time
  updated_at : Time
  started_at : Option Time
  completed_at : Option Time
  attempts : Nat
  deriving DecidableEq, Repr

/-- Embeds `JobResponse` (`app/models/job.py`): the API view of a job;
`user_id`, `payload` and `attempts` are not exposed. -/
structure JobResponse where
  id : String
  title : String
  description : Option String
  status : JobStatus
  priority : Int
  created_at : Time
  updated_at : Time
  started_at : Option Time
  completed_at : Option Time
  result : Option ProcResult
  error : Option String
  deriving DecidableEq, Repr

/-- Embeds `JobResponse.model_validate(job)`: projects a stored document
onto the response shape. -/
def JobResponse.model_validate (j : Job) : JobResponse :=
  { id := j.id, title := j.title, description := j.description,
    status := j.status, priority := j.priority,
    created_at := j.created_at, updated_at := j.updated_at,
    started_at := j.started_at, completed_at := j.completed_at,
    result := j.result, error := j.error }

/-- The job collection: a list of documents, queried by `_id`. -/
abbrev Db := List Job

/-- Embeds `collection.find_one({"_id": id})`: first document with that id. -/
def find_one (db : Db) (id : String) : Option Job :=
  db.find? (fun j => j.id == id)

/-- Replaces the first document whose id matches; all other documents are
untouched (the write half of `find_one_and_update`). -/
def set_first : Db → String → Job → Db
  | [], _, _ => []
  | j :: rest, id, j2 => if j.id == id then j2 :: rest else j :: set_first rest id j2

/-- Removes the first document whose id matches (`delete_one`). -/
def delete_first : Db → String → Db
  | [], _ => []
  | j :: rest, id => if j.id == id then rest else j :: delete_first rest id

/-- A `$set` update document: each field is present (`some`) or absent
(`none`).  These are exactly the fields the source ever places in an
update dictionary (`attempts` is only ever changed via `$inc`). -/
structure UpdateDoc where
  title : Option String := none
  description : Option String := none
  priority : Option Int := none
  payload : Option (List (String × String)) := none
  status : Option JobStatus := none
  result : Option ProcResult := none
  error : Option String := none
  started_at : Option Time := none
  completed_at : Option Time := none
  updated_at : Option Time := none
  deriving DecidableEq, Repr

/-- Mongo `$set`: every field present in the update document overwrites the
stored field; absent fields are untouched. -/
def applySet (j : Job) (d : UpdateDoc) : Job :=
  { j with
    title := d.title.getD j.title,
    description := d.description.or j.description,
    priority := d.priority.getD j.priority,
    payload := d.payload.getD j.payload,
    status := d.status.getD j.status,
    result := d.result.or j.result,
    error := d.error.or j.error,
    started_at := d.started_at.or j.started_at,
    completed_at := d.completed_at.or j.completed_at,
    updated_at := d.updated_at.getD j.updated_at }

/-- Embeds `BaseRepository.update` (`base.py`): an atomic
`find_one_and_update({"_id": id}, {"$set": data}, return_document=True)`
with no ownership filter and no automatic timestamp refresh.  Returns the
post-update document (or `none` when the id is absent) and the new state. -/
def BaseRepository.update (db : Db) (id : String) (data : UpdateDoc) :
    Option Job × Db :=
  match find_one db id with
  | none => (none, db)
  | some j => (some (applySet j data), set_first db id (applySet j data))

/-- Embeds `BaseRepository.delete` (`base.py`): `delete_one({"_id": id})`,
returning `deleted_count > 0`.  No ownership filter. -/
def BaseRepository.delete (db : Db) (id : String) : Bool × Db :=
  match find_one db id with
  | none => (false, db)
  | some _ => (true, delete_first db id)

/-- Embeds `BaseRepository.create` (`base.py`): `insert_one` followed by a
re-read of the inserted id. -/
def BaseRepository.create (db : Db) (doc : Job) : Option Job × Db :=
  (find_one (db ++ [doc]) doc.id, db ++ [doc])

/-- Embeds `BaseRepository.list` (`base.py`): filter, then
`skip`/`limit` pagination (defaults `skip=0`, `limit=100`). -/
def BaseRepository.list (db : Db) (pred : Job → Bool) (skip lim : Nat) :
    List Job :=
  ((db.filter pred).drop skip).take lim

/-- Embeds `JobCreate` (`app/models/job.py`): the validated creation
request. -/
structure JobCreate where
  title : String
  description : Option String := none
  priority : Int := 0
  payload : List (String × String) := []
  deriving DecidableEq, Repr

/-- Embeds `JobRepository.create` (`jobs.py`): merges the request data with
`user_id`, `status`, `created_at`, `updated_at` (two separate
`datetime.utcnow()` reads `t1`, `t2`, in that source order) and
`attempts = 0`, then inserts.  `id` is the store-assigned identifier. -/
def JobRepository.create (db : Db) (id user_id : String) (data : JobCreate)
    (status : JobStatus) (t1 t2 : Time) : Option Job × Db :=
  BaseRepository.create db
    { id := id, title := data.title, description := data.description,
      status := status, priority := data.priority, payload := data.payload,
      user_id := user_id, result := none, error := none,
      created_at := t1, updated_at := t2,
      started_at := none, completed_at := none, attempts := 0 }

/-- Embeds `JobRepository.update_status` (`jobs.py`): unconditionally
`$set`s the requested status and `updated_at := t1`; additionally
`started_at := t2` when the new status is PROCESSING, `completed_at := t2`
when it is COMPLETED or FAILED; `error` only when truthy (non-empty).
There is no transition validation. -/
def JobRepository.update_status (db : Db) (job_id : String)
    (status : JobStatus) (error : Option String) (t1 t2 : Time) :
    Option Job × Db :=
  let d0 : UpdateDoc := { status := some status, updated_at := some t1 }
  let d1 : UpdateDoc :=
    if status = JobStatus.processing then { d0 with started_at := some t2 }
    else if status = JobStatus.completed ∨ status = JobStatus.failed then
      { d0 with completed_at := some t2 }
    else d0
  let d2 : UpdateDoc :=
    match error with
    | some e => if e.length ≠ 0 then { d1 with error := some e } else d1
    | none => d1
  BaseRepository.update db job_id d2

/-- Embeds `JobRepository.increment_attempts` (`jobs.py`): atomic
`$inc` on `attempts` plus `$set` of `updated_at`. -/
def JobRepository.increment_attempts (db : Db) (job_id : String) (t : Time) :
    Option Job × Db :=
  match find_one db job_id with
  | none => (none, db)
  | some j =>
      (some { j with attempts := j.attempts + 1, updated_at := t },
       set_first db job_id { j with attempts := j.attempts + 1, updated_at := t })

/-- Names bound in the module namespace of `jobs.py` (its import lines plus
its own definitions).  `timedelta` is used by `find_stalled_jobs` and
`cleanup_old_jobs` but appears neither here nor among Python builtins:
`from datetime import datetime` imports only the `datetime` class. -/
def jobsModuleScope : List String :=
  ["List", "Optional", "Dict", "Any", "datetime", "ObjectId", "logging",
   "BaseRepository", "Job", "JobStatus", "logger", "JobRepository"]

/-- Python name resolution at a use site inside `jobs.py`: a name not bound
in the module scope (nor a builtin) raises `NameError` when evaluated. -/
def resolve_name (n : String) : Except String Unit :=
  if jobsModuleScope.contains n then Except.ok ()
  else Except.error ("NameError: name " ++ n ++ " is not defined")

/-- Embeds `JobRepository.find_stalled_jobs` (`jobs.py`).  Its first
statement evaluates `timedelta(minutes=threshold_minutes)`, so the name
`timedelta` is resolved before anything else; were it in scope, the
function would list PROCESSING jobs with `started_at` strictly before
`now − threshold` and `attempts < 3` (default pagination `skip=0`,
`limit=100`). -/
def JobRepository.find_stalled_jobs (db : Db) (threshold_minutes : Nat)
    (now : Time) : Except String (List Job) :=
  match resolve_name "timedelta" with
  | Except.error e => Except.error e
  | Except.ok _ =>
      let threshold_time := now - threshold_minutes * 60
      Except.ok (BaseRepository.list db
        (fun j => j.status == JobStatus.processing
          && (match j.started_at with
              | some s => decide (s < threshold_time)
              | none => false)
          && decide (j.attempts < 3)) 0 100)

/-- Embeds `JobRepository.cleanup_old_jobs` (`jobs.py`).  Its first
statement evaluates `timedelta(days=days)`; were `timedelta` in scope, it
would `delete_many` the documents with `created_at` strictly before
`now − days` and status COMPLETED or FAILED, returning the deleted count. -/
def JobRepository.cleanup_old_jobs (db : Db) (days : Nat) (now : Time) :
    Except String (Nat × Db) :=
  match resolve_name "timedelta" with
  | Except.error e => Except.error e
  | Except.ok _ =>
      let threshold_date := now - days * 86400
      let doomed := fun (j : Job) =>
        decide (j.created_at < threshold_date)
          && (j.status == JobStatus.completed || j.status == JobStatus.failed)
      Except.ok ((db.filter doomed).length, db.filter (fun j => ! doomed j))

/-- Embeds `JobUpdate` (`app/models/job.py`) after
`model_dump(exclude_unset=True)`: only the fields the caller explicitly
set are present. -/
structure JobUpdate where
  title : Option String := none
  description : Option String := none
  priority : Option Int := none
  payload : Option (List (String × String)) := none
  deriving DecidableEq, Repr

/-- The `$set` dictionary built by `JobService.update_job` from a partial
update: exactly the explicitly-set descriptive fields, nothing else (in
particular no `updated_at`). -/
def JobUpdate.to_update_doc (u : JobUpdate) : UpdateDoc :=
  { title := u.title, description := u.description,
    priority := u.priority, payload := u.payload }

/-- Embeds `JobService.update_job` (`job_service.py`): applies the partial
update through the ownership-blind `BaseRepository.update`, then checks
`job.user_id == user_id` on the post-update document; a mismatch returns
`None` (as does a missing id), but only after the write has happened. -/
def JobService.update_job (db : Db) (job_id : String) (job_update : JobUpdate)
    (user_id : String) : Option JobResponse × Db :=
  match BaseRepository.update db job_id job_update.to_update_doc with
  | (some j, db2) =>
      if j.user_id == user_id then (some (JobResponse.model_validate j), db2)
      else (none, db2)
  | (none, db2) => (none, db2)

/-- Embeds `JobService.delete_job` (`job_service.py`): delegates to
`BaseRepository.delete`, which filters on `_id` only; the `user_id`
argument is accepted and ignored. -/
def JobService.delete_job (db : Db) (job_id : String) (user_id : String) :
    Bool × Db :=
  BaseRepository.delete db job_id

/-- Embeds the placeholder `JobService._process_job_logic`
(`job_service.py`): always succeeds with `{"processed": True, ...}`. -/
def JobService._process_job_logic (now : Time) (job : Option Job) :
    Except String ProcResult :=
  Except.ok { processed := true, timestamp := now }

/-- The `$set` dictionary written by `update_status` for a PROCESSING
transition: `{"status": PROCESSING, "updated_at": t1, "started_at": t2}`. -/
def processingDoc (t1 t2 : Time) : UpdateDoc :=
  { status := some JobStatus.processing, updated_at := some t1,
    started_at := some t2 }

/-- The `$set` dictionary of the success write in `process_job`:
`{"status": COMPLETED, "result": ..., "completed_at": t3}` — note the
absence of `updated_at`. -/
def completedDoc (res : ProcResult) (t3 : Time) : UpdateDoc :=
  { status := some JobStatus.completed, result := some res,
    completed_at := some t3 }

/-- The `$set` dictionary of the failure write in `process_job`:
`{"status": FAILED, "error": str(e), "completed_at": t3}` — note the
absence of `updated_at`. -/
def failedDoc (e : String) (t3 : Time) : UpdateDoc :=
  { status := some JobStatus.failed, error := some e,
    completed_at := some t3 }

/-- Embeds `JobService.process_job` (`job_service.py`).  `logic` is the
processing logic (`self._process_job_logic`, applied to whatever
`update_status` returned), given as a parameter so failure of step 4 can
be stated.  `t1`, `t2` are the two clock reads inside `update_status`;
`t3` is the `completed_at` read in the terminal write.  Paths:
missing id raises `ValueError`; COMPLETED/FAILED short-circuits with the
document unchanged (idempotency guard); otherwise transition to
PROCESSING, run the logic, then `$set` either
`{status: COMPLETED, result, completed_at}` or, on failure,
`{status: FAILED, error, completed_at}` followed by a re-raise.  Neither
terminal `$set` contains `updated_at`. -/
def JobService.process_job (db : Db) (job_id : String)
    (logic : Option Job → Except String ProcResult) (t1 t2 t3 : Time) :
    Except String JobResponse × Db :=
  match find_one db job_id with
  | none => (Except.error ("Job " ++ job_id ++ " not found"), db)
  | some job =>
    if job.status = JobStatus.completed ∨ job.status = JobStatus.failed then
      (Except.ok (JobResponse.model_validate job), db)
    else
      match JobRepository.update_status db job_id JobStatus.processing none t1 t2 with
      | (job1, db1) =>
        match logic job1 with
        | Except.ok res =>
            match BaseRepository.update db1 job_id (completedDoc res t3) with
            | (some j2, db2) =>
                (Except.ok (JobResponse.model_validate j2), db2)
            | (none, db2) => (Except.error "ValidationError", db2)
        | Except.error e =>
            match BaseRepository.update db1 job_id (failedDoc e t3) with
            | (_, db2) => (Except.error e, db2)

/-! ### Concrete fixtures used by witnesses and counterexamples -/

/-- A freshly created job owned by user `"B"`, created at time 10. -/
def jobB : Job :=
  { id := "j1", title := "t", description := none, status := JobStatus.queued,
    priority := 0, payload := [], user_id := "B", result := none, error := none,
    created_at := 10, updated_at := 10, started_at := none, completed_at := none,
    attempts := 0 }

/-- The same job after reaching the terminal COMPLETED status. -/
def jobDone : Job :=
  { jobB with
    status := JobStatus.completed
    result := some { processed := true, timestamp := 11 }
    completed_at := some 11 }

/-- A partial update that sets only `priority` to 5. -/
def updPrio : JobUpdate := { priority := some 5 }

/-- A creation request with only the required `title`. -/
def jcX : JobCreate := { title := "X" }

/-- A processing logic that always raises. -/
def failingLogic : Option Job → Except String ProcResult :=
  fun _ => Except.error "boom"

/-! ### Helper lemmas about the store primitives -/

/-- Lookup on the empty collection. -/
@[simp] theorem find_one_nil (id : String) : find_one [] id = none := rfl

/-- Lookup on a non-empty collection, one step. -/
theorem find_one_cons (a : Job) (rest : Db) (id : String) :
    find_one (a :: rest) id = if a.id == id then some a else find_one rest id := by
  by_cases h : (a.id == id) = true <;> simp [find_one, List.find?_cons, h]

/-- A document returned by `find_one db id` has id `id`. -/
theorem find_one_id {db : Db} {id : String} {j : Job}
    (h : find_one db id = some j) : j.id = id := by
  have h2 : db.find? (fun j => j.id == id) = some j := h
  have := List.find?_some h2
  simpa using this

/-- Updating an absent id leaves the collection unchanged. -/
theorem set_first_of_not_found (db : Db) (id : String) (j2 : Job)
    (h : find_one db id = none) : set_first db id j2 = db := by
  induction db with
  | nil => rfl
  | cons a rest ih =>
      rw [find_one_cons] at h
      by_cases ha : (a.id == id) = true
      · simp [ha] at h
      · rw [if_neg ha] at h
        simp [set_first, ha, ih h]

/-- Deleting an absent id leaves the collection unchanged. -/
theorem delete_first_of_not_found (db : Db) (id : String)
    (h : find_one db id = none) : delete_first db id = db := by
  induction db with
  | nil => rfl
  | cons a rest ih =>
      rw [find_one_cons] at h
      by_cases ha : (a.id == id) = true
      · simp [ha] at h
      · rw [if_neg ha] at h
        simp [delete_first, ha, ih h]

/-- After replacing the document at `id`, looking `id` up returns the
replacement. -/
theorem find_one_set_first_self {db : Db} {id : String} {j : Job} (j2 : Job)
    (h : find_one db id = some j) (hid : j2.id = id) :
    find_one (set_first db id j2) id = some j2 := by
  induction db with
  | nil => simp at h
  | cons a rest ih =>
      rw [find_one_cons] at h
      by_cases ha : (a.id == id) = true
      · have hj2 : (j2.id == id) = true := by simp [hid]
        simp [set_first, ha, find_one_cons, hj2]
      · rw [if_neg ha] at h
        simp [set_first, ha, find_one_cons, ih h]

/-- Replacing the document at `id` (with a document that keeps id `id`)
does not affect lookups of any other id. -/
theorem find_one_set_first_other {db : Db} {id : String} (id2 : String)
    (j2 : Job) (hne : id2 ≠ id) (hid : j2.id = id) :
    find_one (set_first db id j2) id2 = find_one db id2 := by
  induction db with
  | nil => rfl
  | cons a rest ih =>
      by_cases ha : (a.id == id) = true
      · have haid : a.id = id := by simpa using ha
        have h1 : (j2.id == id2) = false := by
          simp only [beq_eq_false_iff_ne, ne_eq, hid]
          exact Ne.symm hne
        have h2 : (a.id == id2) = false := by
          simp only [beq_eq_false_iff_ne, ne_eq, haid]
          exact Ne.symm hne
        simp [set_first, ha, find_one_cons, h1, h2]
      · simp [set_first, ha, find_one_cons, ih]

/-- Inserting a document with a fresh id and re-reading that id returns the
inserted document. -/
theorem find_one_append_self (db : Db) (d : Job)
    (h : find_one db d.id = none) : find_one (db ++ [d]) d.id = some d := by
  induction db with
  | nil => simp [find_one_cons]
  | cons a rest ih =>
      rw [find_one_cons] at h
      by_cases ha : (a.id == d.id) = true
      · simp [ha] at h
      · rw [if_neg ha] at h
        rw [List.cons_append, find_one_cons, if_neg ha]
        exact ih h

/-! ### Projection lemmas for `$set` -/

/-- A `$set` never changes the document id. -/
@[simp] theorem applySet_id (j : Job) (d : UpdateDoc) :
    (applySet j d).id = j.id := rfl

/-- A `$set` never changes the owner (`user_id` is not an update field). -/
@[simp] theorem applySet_user_id (j : Job) (d : UpdateDoc) :
    (applySet j d).user_id = j.user_id := rfl

/-- A `$set` never changes `attempts` (only `$inc` does). -/
@[simp] theorem applySet_attempts (j : Job) (d : UpdateDoc) :
    (applySet j d).attempts = j.attempts := rfl

/-- A `$set` never changes `created_at`. -/
@[simp] theorem applySet_created_at (j : Job) (d : UpdateDoc) :
    (applySet j d).created_at = j.created_at := rfl

/-- The stored `updated_at` after a `$set` is the update document's value
when present, the old value otherwise. -/
@[simp] theorem applySet_updated_at (j : Job) (d : UpdateDoc) :
    (applySet j d).updated_at = d.updated_at.getD j.updated_at := rfl

/-- The stored status after a `$set` is the update document's value when
present. -/
@[simp] theorem applySet_status (j : Job) (d : UpdateDoc) :
    (applySet j d).status = d.status.getD j.status := rfl

/-- The `update_status` call made by `process_job` is a plain `$set` of
`status := PROCESSING`, `updated_at := t1` and `started_at := t2`. -/
theorem update_status_processing_eq (db : Db) (job_id : String) (t1 t2 : Time) :
    JobRepository.update_status db job_id JobStatus.processing none t1 t2
      = BaseRepository.update db job_id (processingDoc t1 t2) := rfl

/-- On the non-terminal path, `process_job` first stores the PROCESSING
document, then stores one terminal `$set` on top of it; which one, and the
outward result, depend only on what the processing logic returns. -/
theorem process_job_nonterminal_run (db : Db) (job_id : String)
    (logic : Option Job → Except String ProcResult) (t1 t2 t3 : Time)
    (job : Job) (hfind : find_one db job_id = some job)
    (hnt : ¬(job.status = JobStatus.completed ∨ job.status = JobStatus.failed)) :
    JobService.process_job db job_id logic t1 t2 t3 =
      match logic (some (applySet job (processingDoc t1 t2))) with
      | Except.ok res =>
          (Except.ok (JobResponse.model_validate
              (applySet (applySet job (processingDoc t1 t2)) (completedDoc res t3))),
           set_first (set_first db job_id (applySet job (processingDoc t1 t2))) job_id
             (applySet (applySet job (processingDoc t1 t2)) (completedDoc res t3)))
      | Except.error e =>
          (Except.error e,
           set_first (set_first db job_id (applySet job (processingDoc t1 t2))) job_id
             (applySet (applySet job (processingDoc t1 t2)) (failedDoc e t3))) := by
  have hid : job.id = job_id := find_one_id hfind
  have hfind1 :
      find_one (set_first db job_id (applySet job (processingDoc t1 t2))) job_id
        = some (applySet job (processingDoc t1 t2)) :=
    find_one_set_first_self _ hfind (by simp [hid])
  simp only [JobService.process_job, hfind, update_status_processing_eq,
    BaseRepository.update, hfind1, if_neg hnt]

/-- The stored `error` after a `$set`. -/
@[simp] theorem applySet_error (j : Job) (d : UpdateDoc) :
    (applySet j d).error = d.error.or j.error := rfl

/-- The stored `completed_at` after a `$set`. -/
@[simp] theorem applySet_completed_at (j : Job) (d : UpdateDoc) :
    (applySet j d).completed_at = d.completed_at.or j.completed_at := rfl

/-- The PROCESSING `$set` carries `updated_at = t1`. -/
@[simp] theorem processingDoc_updated_at (t1 t2 : Time) :
    (processingDoc t1 t2).updated_at = some t1 := rfl

/-- The COMPLETED `$set` carries no `updated_at`. -/
@[simp] theorem completedDoc_updated_at (res : ProcResult) (t3 : Time) :
    (completedDoc res t3).updated_at = none := rfl

/-- The FAILED `$set` carries no `updated_at`. -/
@[simp] theorem failedDoc_updated_at (e : String) (t3 : Time) :
    (failedDoc e t3).updated_at = none := rfl

/-- The FAILED `$set` carries the FAILED status. -/
@[simp] theorem failedDoc_status (e : String) (t3 : Time) :
    (failedDoc e t3).status = some JobStatus.failed := rfl

/-- The FAILED `$set` carries the error message. -/
@[simp] theorem failedDoc_error (e : String) (t3 : Time) :
    (failedDoc e t3).error = some e := rfl

/-- The FAILED `$set` carries `completed_at = t3`. -/
@[simp] theorem failedDoc_completed_at (e : String) (t3 : Time) :
    (failedDoc e t3).completed_at = some t3 := rfl

/-- The partial-update `$set` built from a `JobUpdate` carries no
`updated_at`. -/
@[simp] theorem to_update_doc_updated_at (u : JobUpdate) :
    (JobUpdate.to_update_doc u).updated_at = none := rfl

/-- The collection state after `update_job` is exactly the state after the
underlying unscoped `$set`; the ownership comparison only selects the
returned value. -/
theorem update_job_snd (db : Db) (job_id : String) (u : JobUpdate)
    (uid : String) :
    (JobService.update_job db job_id u uid).2
      = (BaseRepository.update db job_id u.to_update_doc).2 := by
  unfold JobService.update_job
  cases h : BaseRepository.update db job_id u.to_update_doc with
  | mk fst snd =>
      cases fst with
      | none => rfl
      | some j => by_cases hu : (j.user_id == uid) = true <;> simp [hu]

/-! ### Claims -/

/-- C1: `process` is idempotent on terminal jobs: for every job whose stored
status is COMPLETED or FAILED, `process_job` returns exactly that job's
document (projected to the response shape) and leaves the store unchanged,
so a second delivery after a call that reached a terminal status returns
the identical terminal document. -/
theorem C1_process_idempotent_on_terminal (db : Db) (job_id : String)
    (logic : Option Job → Except String ProcResult) (t1 t2 t3 : Time)
    (job : Job) (hfind : find_one db job_id = some job)
    (hterm : job.status = JobStatus.completed ∨ job.status = JobStatus.failed) :
    JobService.process_job db job_id logic t1 t2 t3
      = (Except.ok (JobResponse.model_validate job), db) := by
  simp only [JobService.process_job, hfind]
  rw [if_pos hterm]

/-- C1 witness: a concrete COMPLETED job is returned unchanged. -/
theorem C1_process_idempotent_on_terminal_witness :
    JobService.process_job [jobDone] "j1" (JobService._process_job_logic 12)
        12 12 12
      = (Except.ok (JobResponse.model_validate jobDone), [jobDone]) :=
  C1_process_idempotent_on_terminal [jobDone] "j1"
    (JobService._process_job_logic 12) 12 12 12 jobDone (by decide) (by decide)

/-- C2 counterexample: caller `"A"` updates the job owned by `"B"`; the call
returns absent as claimed, but the stored document is mutated (priority
becomes 5), refuting "leaves the stored job document completely
unchanged". -/
theorem C2_update_mutates_foreign_job_counterexample :
    (JobService.update_job [jobB] "j1" updPrio "A").1 = none
    ∧ find_one (JobService.update_job [jobB] "j1" updPrio "A").2 "j1" ≠ some jobB
    ∧ (find_one (JobService.update_job [jobB] "j1" updPrio "A").2 "j1").map Job.priority
        = some 5 := by decide

/-- C2 (amended): for a caller who does not own the job, `update_job`
returns absent (`none`, the same outward result as a missing job), but the
partial update has already been applied to the stored document — the
ownership check happens only after the unscoped write. -/
theorem C2_update_nonowner_returns_absent_but_writes (db : Db)
    (job_id : String) (u : JobUpdate) (caller : String) (job : Job)
    (hfind : find_one db job_id = some job)
    (hown : job.user_id ≠ caller) :
    JobService.update_job db job_id u caller
      = (none, set_first db job_id (applySet job u.to_update_doc)) := by
  simp [JobService.update_job, BaseRepository.update, hfind, hown]

/-- C2 witness: the amended statement at the concrete input of the
counterexample. -/
theorem C2_update_nonowner_returns_absent_but_writes_witness :
    JobService.update_job [jobB] "j1" updPrio "A"
      = (none, set_first [jobB] "j1" (applySet jobB updPrio.to_update_doc)) :=
  C2_update_nonowner_returns_absent_but_writes [jobB] "j1" updPrio "A" jobB
    (by decide) (by decide)

/-- C3 counterexample: caller `"A"` deletes the job owned by `"B"`: the
call returns `true` and the document is gone, refuting "when A ≠ B the job
is not deleted". -/
theorem C3_delete_ignores_owner_counterexample :
    (JobService.delete_job [jobB] "j1" "A").1 = true
    ∧ (JobService.delete_job [jobB] "j1" "A").2 = [] := by decide

/-- C3 (amended): `delete_job` returns exactly "a document with that id
existed and was removed", but the deletion is not ownership-scoped: the
`user_id` argument is ignored, so any caller removes any existing job. -/
theorem C3_delete_returns_existence_unscoped (db : Db)
    (job_id user_id : String) :
    JobService.delete_job db job_id user_id
      = ((find_one db job_id).isSome, delete_first db job_id) := by
  unfold JobService.delete_job BaseRepository.delete
  cases h : find_one db job_id with
  | none => simp [delete_first_of_not_found db job_id h]
  | some j => simp

/-- C4: the code at the failing input — `update_status` on a COMPLETED job
with the PROCESSING status overwrites the terminal status (and the stored
document regresses to PROCESSING), instead of rejecting or no-op-ing. -/
theorem C4_update_status_regresses_terminal :
    ((JobRepository.update_status [jobDone] "j1" JobStatus.processing none
        20 21).1.map Job.status = some JobStatus.processing)
    ∧ ((find_one (JobRepository.update_status [jobDone] "j1"
        JobStatus.processing none 20 21).2 "j1").map Job.status
          = some JobStatus.processing) := by decide

/-- C5 counterexample: an owner-matching partial update (a persisted-field
mutation: priority 0 → 5) leaves `updated_at` at its creation value 10 —
the `update_job` path reads no clock and its `$set` carries no
`updated_at`, refuting "every mutating operation refreshes updatedAt". -/
theorem C5_update_job_skips_updated_at_counterexample :
    (JobService.update_job [jobB] "j1" updPrio "B").1.isSome = true
    ∧ (find_one (JobService.update_job [jobB] "j1" updPrio "B").2 "j1").map
        Job.priority = some 5
    ∧ (find_one (JobService.update_job [jobB] "j1" updPrio "B").2 "j1").map
        Job.updated_at = some 10 := by decide

/-- C5 (amended): `update_status` and `increment_attempts` refresh the
stored `updated_at` to the time of the mutation, but the partial-update
path (`update_job`) leaves every stored `updated_at` untouched, and the
terminal COMPLETED/FAILED writes inside `process_job` leave `updated_at`
at the value `t1` written by the PROCESSING transition. -/
theorem C5_updated_at_refresh_policy :
    (∀ (db : Db) (job_id : String) (st : JobStatus) (err : Option String)
        (t1 t2 : Time) (j : Job), find_one db job_id = some j →
      (JobRepository.update_status db job_id st err t1 t2).1.map Job.updated_at
        = some t1)
    ∧ (∀ (db : Db) (job_id : String) (t : Time) (j : Job),
        find_one db job_id = some j →
      (JobRepository.increment_attempts db job_id t).1.map Job.updated_at
        = some t)
    ∧ (∀ (db : Db) (job_id : String) (u : JobUpdate) (uid id2 : String),
      (find_one (JobService.update_job db job_id u uid).2 id2).map Job.updated_at
        = (find_one db id2).map Job.updated_at)
    ∧ (∀ (db : Db) (job_id : String)
        (logic : Option Job → Except String ProcResult) (t1 t2 t3 : Time)
        (j : Job), find_one db job_id = some j →
        ¬(j.status = JobStatus.completed ∨ j.status = JobStatus.failed) →
      (find_one (JobService.process_job db job_id logic t1 t2 t3).2 job_id).map
          Job.updated_at = some t1) := by
  refine ⟨?_, ?_, ?_, ?_⟩
  · intro db job_id st err t1 t2 j hfind
    simp only [JobRepository.update_status, BaseRepository.update, hfind]
    cases err with
    | none => split_ifs <;> simp [applySet]
    | some e => split_ifs <;> simp [applySet] <;> split_ifs <;> simp
  · intro db job_id t j hfind
    simp [JobRepository.increment_attempts, hfind]
  · intro db job_id u uid id2
    rw [update_job_snd]
    unfold BaseRepository.update
    cases hfind : find_one db job_id with
    | none => rfl
    | some j =>
        have hid : j.id = job_id := find_one_id hfind
        by_cases h2 : id2 = job_id
        · show (find_one (set_first db job_id (applySet j u.to_update_doc)) id2).map
              Job.updated_at = (find_one db id2).map Job.updated_at
          rw [h2, find_one_set_first_self (applySet j u.to_update_doc) hfind
                (by simp [hid]), hfind]
          simp
        · show (find_one (set_first db job_id (applySet j u.to_update_doc)) id2).map
              Job.updated_at = (find_one db id2).map Job.updated_at
          rw [find_one_set_first_other id2 (applySet j u.to_update_doc) h2
                (by simp [hid])]
  · intro db job_id logic t1 t2 t3 j hfind hnt
    have hid : j.id = job_id := find_one_id hfind
    rw [process_job_nonterminal_run db job_id logic t1 t2 t3 j hfind hnt]
    have hfind1 :
        find_one (set_first db job_id (applySet j (processingDoc t1 t2))) job_id
          = some (applySet j (processingDoc t1 t2)) :=
      find_one_set_first_self _ hfind (by simp [hid])
    cases hlogic : logic (some (applySet j (processingDoc t1 t2))) with
    | ok res =>
        simp only [hlogic]
        rw [find_one_set_first_self _ hfind1 (by simp [hid])]
        simp
    | error e =>
        simp only [hlogic]
        rw [find_one_set_first_self _ hfind1 (by simp [hid])]
        simp

/-- C5 witness: all four conjuncts of the amended policy at concrete
inputs. -/
theorem C5_updated_at_refresh_policy_witness :
    ((JobRepository.update_status [jobB] "j1" JobStatus.cancelled none 33 34).1.map
        Job.updated_at = some 33)
    ∧ ((JobRepository.increment_attempts [jobB] "j1" 44).1.map Job.updated_at
        = some 44)
    ∧ ((find_one (JobService.update_job [jobB] "j1" updPrio "B").2 "j1").map
        Job.updated_at = (find_one [jobB] "j1").map Job.updated_at)
    ∧ ((find_one (JobService.process_job [jobB] "j1" failingLogic 20 20 21).2
        "j1").map Job.updated_at = some 20) :=
  ⟨C5_updated_at_refresh_policy.1 [jobB] "j1" JobStatus.cancelled none 33 34
      jobB (by decide),
   C5_updated_at_refresh_policy.2.1 [jobB] "j1" 44 jobB (by decide),
   C5_updated_at_refresh_policy.2.2.1 [jobB] "j1" updPrio "B" "j1",
   C5_updated_at_refresh_policy.2.2.2 [jobB] "j1" failingLogic 20 20 21 jobB
      (by decide) (by decide)⟩

/-- C6 counterexample: a creation whose two clock reads are the consecutive
instants 0 and 1 (a monotone clock) yields `createdAt = 0 ≠ 1 = updatedAt`,
refuting "createdAt equal to updatedAt". -/
theorem C6_created_at_ne_updated_at_counterexample :
    ((JobRepository.create [] "j1" "u1" jcX JobStatus.queued 0 1).1.map
        (fun j => (j.created_at, j.updated_at))) = some (0, 1)
    ∧ (0 : Time) ≠ 1 := by decide

/-- C6 (amended): for every valid creation request (with a fresh id and
monotone clock reads `t1 ≤ t2`), the created job has status QUEUED,
`attempts = 0`, `started_at`/`completed_at` absent, and
`created_at = t1 ≤ t2 = updated_at` — the two timestamps come from two
separate `utcnow()` reads, so they need not coincide. -/
theorem C6_create_postcondition (db : Db) (id uid : String) (data : JobCreate)
    (t1 t2 : Time) (hfresh : find_one db id = none) (hclock : t1 ≤ t2) :
    ∃ j, (JobRepository.create db id uid data JobStatus.queued t1 t2).1 = some j
      ∧ j.status = JobStatus.queued ∧ j.attempts = 0 ∧ j.started_at = none
      ∧ j.completed_at = none ∧ j.created_at = t1 ∧ j.updated_at = t2
      ∧ j.created_at ≤ j.updated_at := by
  refine ⟨{ id := id, title := data.title, description := data.description,
            status := JobStatus.queued, priority := data.priority,
            payload := data.payload, user_id := uid, result := none,
            error := none, created_at := t1, updated_at := t2,
            started_at := none, completed_at := none, attempts := 0 },
          ?_, rfl, rfl, rfl, rfl, rfl, rfl, hclock⟩
  exact find_one_append_self db _ hfresh

/-- C6 witness: the amended postcondition at a concrete creation. -/
theorem C6_create_postcondition_witness :
    ∃ j, (JobRepository.create [] "j1" "u1" jcX JobStatus.queued 0 1).1 = some j
      ∧ j.status = JobStatus.queued ∧ j.attempts = 0 ∧ j.started_at = none
      ∧ j.completed_at = none ∧ j.created_at = 0 ∧ j.updated_at = 1
      ∧ j.created_at ≤ j.updated_at :=
  C6_create_postcondition [] "j1" "u1" jcX 0 1 rfl (by decide)

/-- C7: evaluating `find_stalled_jobs` — at every input, including
`find_stalled_jobs(30)` — the very first statement evaluates
`timedelta(minutes=...)`, and `timedelta` is bound nowhere in the module
(`jobs.py` imports only `datetime` from the `datetime` module), so the
call raises `NameError` instead of returning the stalled-job list. -/
theorem C7_find_stalled_jobs_raises_name_error (db : Db) (m : Nat)
    (now : Time) :
    JobRepository.find_stalled_jobs db m now
      = Except.error "NameError: name timedelta is not defined" := rfl

/-- C8: evaluating `cleanup_old_jobs` — at every input, including
`cleanup_old_jobs(30)` — the very first statement evaluates
`timedelta(days=...)`, which raises `NameError` for the same missing
import, so no job is ever deleted and no count is returned. -/
theorem C8_cleanup_old_jobs_raises_name_error (db : Db) (days : Nat)
    (now : Time) :
    JobRepository.cleanup_old_jobs db days now
      = Except.error "NameError: name timedelta is not defined" := rfl

/-- C9: failure path of `process`: when the processing logic raises `e`
(on exactly the argument the code passes it), `process_job` re-raises `e`
to its caller, and the stored job ends with status FAILED, `error`
populated with the exception message, and `completed_at` set. -/
theorem C9_process_failure_records_and_reraises (db : Db) (job_id : String)
    (logic : Option Job → Except String ProcResult) (t1 t2 t3 : Time)
    (job : Job) (e : String)
    (hfind : find_one db job_id = some job)
    (hnt : ¬(job.status = JobStatus.completed ∨ job.status = JobStatus.failed))
    (hfail : logic (JobRepository.update_status db job_id
        JobStatus.processing none t1 t2).1 = Except.error e) :
    (JobService.process_job db job_id logic t1 t2 t3).1 = Except.error e
    ∧ ∃ jf, find_one (JobService.process_job db job_id logic t1 t2 t3).2 job_id
          = some jf
        ∧ jf.status = JobStatus.failed ∧ jf.error = some e
        ∧ jf.completed_at = some t3 := by
  have hid : job.id = job_id := find_one_id hfind
  have hfail2 : logic (some (applySet job (processingDoc t1 t2)))
      = Except.error e := by
    rw [update_status_processing_eq] at hfail
    simpa [BaseRepository.update, hfind] using hfail
  have hfind1 :
      find_one (set_first db job_id (applySet job (processingDoc t1 t2))) job_id
        = some (applySet job (processingDoc t1 t2)) :=
    find_one_set_first_self _ hfind (by simp [hid])
  rw [process_job_nonterminal_run db job_id logic t1 t2 t3 job hfind hnt,
    hfail2]
  exact ⟨rfl, _, find_one_set_first_self _ hfind1 (by simp [hid]), by simp,
    by simp, by simp⟩

/-- C9 witness: a concrete queued job processed with an always-raising
logic ends FAILED with the message recorded and the error re-raised. -/
theorem C9_process_failure_records_and_reraises_witness :
    (JobService.process_job [jobB] "j1" failingLogic 20 20 21).1
        = Except.error "boom"
    ∧ ∃ jf, find_one (JobService.process_job [jobB] "j1" failingLogic
          20 20 21).2 "j1" = some jf
        ∧ jf.status = JobStatus.failed ∧ jf.error = some "boom"
        ∧ jf.completed_at = some 21 :=
  C9_process_failure_records_and_reraises [jobB] "j1" failingLogic 20 20 21
    jobB "boom" (by decide) (by decide) rfl

/-- C10: `process_job` never changes any job's `attempts` counter on any
path — idempotency-guard return, missing id, successful completion, or
failure — because none of its `$set` documents mention `attempts` and
`increment_attempts` is called by no service operation. -/
theorem C10_process_job_preserves_attempts (db : Db) (job_id : String)
    (logic : Option Job → Except String ProcResult) (t1 t2 t3 : Time)
    (id2 : String) :
    (find_one (JobService.process_job db job_id logic t1 t2 t3).2 id2).map
        Job.attempts
      = (find_one db id2).map Job.attempts := by
  cases hfind : find_one db job_id with
  | none => simp only [JobService.process_job, hfind]
  | some job =>
      by_cases hterm :
          job.status = JobStatus.completed ∨ job.status = JobStatus.failed
      · simp only [JobService.process_job, hfind]
        rw [if_pos hterm]
      · have hid : job.id = job_id := find_one_id hfind
        rw [process_job_nonterminal_run db job_id logic t1 t2 t3 job hfind
              hterm]
        have hfind1 : find_one
            (set_first db job_id (applySet job (processingDoc t1 t2))) job_id
              = some (applySet job (processingDoc t1 t2)) :=
          find_one_set_first_self _ hfind (by simp [hid])
        by_cases h2 : id2 = job_id
        · subst h2
          cases hlogic : logic (some (applySet job (processingDoc t1 t2))) with
          | ok res =>
              simp only [hlogic]
              rw [find_one_set_first_self _ hfind1 (by simp [hid]), hfind]
              simp
          | error e =>
              simp only [hlogic]
              rw [find_one_set_first_self _ hfind1 (by simp [hid]), hfind]
              simp
        · cases hlogic : logic (some (applySet job (processingDoc t1 t2))) with
          | ok res =>
              simp only [hlogic]
              rw [find_one_set_first_other id2 _ h2 (by simp [hid]),
                  find_one_set_first_other id2 _ h2 (by simp [hid])]
          | error e =>
              simp only [hlogic]
              rw [find_one_set_first_other id2 _ h2 (by simp [hid]),
                  find_one_set_first_other id2 _ h2 (by simp [hid])]
